import Mathlib

/-!
Verification development for the big-network-info network discovery and
port-scanning engine.

The definitions below are a shallow embedding of the Python source:

* `parse_ip_range` embeds `src/utils/network.py: parse_ip_range` (IPv4 inputs);
* `NetworkScanner.scan_network` / `_enhanced_host_discovery` and their helper
  phases embed `src/core/scanner.py`.

System collaborators (the `ping` subprocess, the `ip neigh` ARP reader, socket
connects, DNS/avahi resolution, the IEEE OUI database file) are modelled by a
`NetEnv` record of deterministic oracles; thread-pool completion order is
modelled by explicit reordering functions; the cooperative `_stop_scanning`
flag is modelled by counting flag reads and giving the read index at which a
`stop_scan` request becomes visible; unexpected Python exceptions are modelled
by an explicit injection site.  Machine integers are `Nat`/`Int`; fallible
parsing returns `Option`/`Except`.
-/

namespace BigNetworkInfo

/-! ### Character-list string helpers (embedding Python `str` operations) -/

/-- Python's `sep in s` / `s.count(sep)` for a one-character separator:
split a character list at every occurrence of `c`, keeping empty pieces,
exactly like Python's `str.split(sep)`. -/
def splitCharAux (c : Char) : List Char → List Char → List (List Char)
  | [], acc => [acc.reverse]
  | x :: xs, acc =>
      if x = c then acc.reverse :: splitCharAux c xs []
      else splitCharAux c xs (x :: acc)

/-- Python `s.split(c)` for a single-character separator `c`. -/
def pySplit (c : Char) (s : String) : List String :=
  (splitCharAux c s.data []).map List.asString

/-- Python `c in s` for a single-character `c`. -/
def pyContains (c : Char) (s : String) : Bool :=
  s.data.contains c

/-- Python `s.count(c)` for a single-character `c`. -/
def pyCount (c : Char) (s : String) : Nat :=
  s.data.count c

/-- Python `s.strip()` (ASCII whitespace suffices for the inputs modelled). -/
def pyStrip (s : String) : String :=
  ((s.data.dropWhile Char.isWhitespace).reverse.dropWhile Char.isWhitespace).reverse.asString

/-- Python `".".join(parts)`. -/
def joinDots : List String → String
  | [] => ""
  | [p] => p
  | p :: rest => p ++ "." ++ joinDots rest

/-- Decimal digit test (Python `str.isdigit` on ASCII input). -/
def isDigitChar (c : Char) : Bool :=
  '0' ≤ c && c ≤ '9'

/-- Value of a list of decimal digits. -/
def digitsVal (l : List Char) : Nat :=
  l.foldl (fun acc c => acc * 10 + (c.toNat - '0'.toNat)) 0

/-- Python `int(s)` restricted to the shapes the scanner feeds it: optional
surrounding whitespace, optional sign, then decimal digits.  Returns `none`
where Python raises `ValueError`. -/
def pyInt? (s : String) : Option Int :=
  let cs := pyStrip s |>.data
  match cs with
  | [] => none
  | c :: rest =>
      if c = '-' then
        if rest ≠ [] ∧ rest.all isDigitChar then some (-(digitsVal rest : Int)) else none
      else if c = '+' then
        if rest ≠ [] ∧ rest.all isDigitChar then some (digitsVal rest : Int) else none
      else if cs.all isDigitChar then some (digitsVal cs : Int)
      else none

/-! ### IPv4 parsing and printing (embedding `ipaddress.ip_address` /
`ipaddress.ip_network` for dotted-quad IPv4 input) -/

/-- One octet, with `ipaddress._parse_octet`'s rules: 1–3 ASCII decimal
digits, no leading zero (except `"0"` itself), value at most 255. -/
def parseOctet? (s : String) : Option Nat :=
  let cs := s.data
  if cs ≠ [] ∧ cs.length ≤ 3 ∧ cs.all isDigitChar ∧
      (cs.length = 1 ∨ cs.head? ≠ some '0') ∧ digitsVal cs ≤ 255 then
    some (digitsVal cs)
  else none

/-- `ipaddress.ip_address` on a dotted-quad IPv4 literal, as the 32-bit value. -/
def parseIPv4? (s : String) : Option Nat :=
  match (pySplit '.' s).map parseOctet? with
  | [some a, some b, some c, some d] => some (((a * 256 + b) * 256 + c) * 256 + d)
  | _ => none

/-- `str(ipaddress.ip_address(v))`: dotted-quad rendering of a 32-bit value. -/
def ipToString (v : Nat) : String :=
  joinDots [toString (v / 2 ^ 24 % 256), toString (v / 2 ^ 16 % 256),
            toString (v / 2 ^ 8 % 256), toString (v % 256)]

/-- `ipaddress.ip_network(spec, strict=False)` for IPv4: returns the raw
parsed address and the prefix length.  A spec without `/` denotes a `/32`
network, mirroring `ip_network` on a bare address. -/
def parseCIDR? (s : String) : Option (Nat × Nat) :=
  if pyContains '/' s then
    match pySplit '/' s with
    | [ipPart, pfxPart] =>
        match parseIPv4? ipPart with
        | some v =>
            let cs := pfxPart.data
            if cs ≠ [] ∧ cs.all isDigitChar ∧ digitsVal cs ≤ 32 then
              some (v, digitsVal cs)
            else none
        | none => none
    | _ => none
  else
    match parseIPv4? s with
    | some v => some (v, 32)
    | none => none

/-- `ipaddress.ip_network(spec, strict=False).hosts()` as 32-bit values:
for a prefix `n ≤ 30` all addresses strictly between the network and
broadcast addresses; both addresses for `/31`; the address itself for `/32`.
`strict=False` masks the host bits away. -/
def cidrHostsN (addr n : Nat) : List Nat :=
  let size := 2 ^ (32 - n)
  let base := addr - addr % size
  if n ≤ 30 then (List.range (size - 2)).map (fun i => base + 1 + i)
  else if n = 31 then [base, base + 1]
  else [addr]

/-- The inclusive walk of the full dotted range branch
(`while current <= end_addr` in `parse_ip_range`). -/
def fullRangeWalk (startV endV : Nat) : List Nat :=
  (List.range (endV + 1 - startV)).map (fun i => startV + i)

/-- The trailing-octet branch of `parse_ip_range`
(`for i in range(start_octet, end_octet + 1): ip_list.append(f"{base_ip}.{i}")`).
`s` is the start octet (already validated, hence a `Nat`), `e` is the raw
`int(end_part)` (never range-checked by the source). -/
def rangeLastOctet (baseIp : String) (s : Nat) (e : Int) : List String :=
  (List.range (e + 1 - (s : Int)).toNat).map (fun i => baseIp ++ "." ++ toString (s + i))

/-- Embedding of `src/utils/network.py: parse_ip_range` for IPv4 input.
The Python `except (AddressValueError, ValueError)` re-raise is the
`Except.error` case.  Note the faithful quirks: a spec with two or more
dashes falls through every branch and yields `ok []`; the full dotted range
walk raises when it has to step past `255.255.255.255`. -/
def parse_ip_range (ip_range : String) : Except String (List String) :=
  let fail : Except String (List String) :=
    .error ("Invalid IP range format: " ++ ip_range)
  if pyContains '/' ip_range then
    match parseCIDR? ip_range with
    | some (addr, n) => .ok ((cidrHostsN addr n).map ipToString)
    | none => fail
  else if pyContains '-' ip_range then
    if pyCount '-' ip_range = 1 then
      match pySplit '-' ip_range with
      | [startRaw, endRaw] =>
          let start_ip := pyStrip startRaw
          let end_part := pyStrip endRaw
          match parseIPv4? start_ip with
          | none => fail
          | some startV =>
              if ¬ pyContains '.' end_part then
                let parts := pySplit '.' start_ip
                let base_ip := joinDots (parts.dropLast)
                let start_octet := startV % 256
                match pyInt? end_part with
                | none => fail
                | some end_octet => .ok (rangeLastOctet base_ip start_octet end_octet)
              else
                match parseIPv4? end_part with
                | none => fail
                | some endV =>
                    if startV ≤ endV ∧ endV = 2 ^ 32 - 1 then fail
                    else .ok ((fullRangeWalk startV endV).map ipToString)
      | _ => fail
    else .ok []
  else
    match parseIPv4? ip_range with
    | some v => .ok [ipToString v]
    | none => fail

/-! ### More Python string helpers used by the scanner -/

/-- Python `s.startswith(p)`. -/
def pyStartsWith (p s : String) : Bool := p.data.isPrefixOf s.data

/-- Python `s.endswith(p)`. -/
def pyEndsWith (p s : String) : Bool := p.data.isSuffixOf s.data

/-- Python `needle in hay` (substring containment). -/
def pySubstr (needle hay : String) : Bool :=
  hay.data.tails.any (fun t => needle.data.isPrefixOf t)

/-- Python `s.lower()` (ASCII). -/
def pyLower (s : String) : String := (s.data.map Char.toLower).asString

/-- Python `s.upper()` (ASCII). -/
def pyUpper (s : String) : String := (s.data.map Char.toUpper).asString

/-- Lookup in an association list, embedding Python `dict.get` /
`key in dict` for the dictionaries the scanner builds. -/
def lookupAssoc {α : Type} (m : List (String × α)) (k : String) : Option α :=
  match m with
  | [] => none
  | (k', v) :: rest => if k' = k then some v else lookupAssoc rest k

/-! ### Scanner data model (`src/core/scanner.py`, `src/core/services.py`) -/

/-- `services.py: ServiceInfo` (a NamedTuple). -/
structure ServiceInfo where
  name : String
  port : Nat
  protocol : String
  description : String
  access_method : String
deriving DecidableEq

/-- One entry of the host dictionaries built by `_enhanced_host_discovery`
(`{"ip": ..., "mac": ..., "vendor": ...}`). -/
structure HostEntry where
  ip : String
  mac : String
  vendor : String
deriving DecidableEq

/-- `scanner.py: ScanResult`.  The source also carries a float
`response_time` that is always the constant `0.0` (scanner.py line 944);
floats are outside the embedding, so the field is dropped. -/
structure ScanResult where
  ip : String
  hostname : String
  mac : String
  vendor : String
  services : List ServiceInfo
  is_alive : Bool
deriving DecidableEq

/-- Observable interactions with the operating system: a `ping` process
spawned for an address, the neighbor/ARP table read, a `_tcp_ping` connect,
and the submission of one host×service port-probe task to the scan pool. -/
inductive Ev where
  | pingProbe (ip : String)
  | arpRead
  | tcpProbe (ip : String) (port : Nat)
  | submitPort (ip : String) (svc : ServiceInfo)
deriving DecidableEq

/-- Injection site for an unexpected Python exception inside the
`try` block of `scan_network`: while creating the port-scan worker pool
(before any task is submitted), or inside the result-assembly loop after
`k` results have been appended.  `scan_network`'s `except Exception`
handler catches either and returns the current `results` list. -/
inductive ExnSite where
  | duringServices
  | duringAssembly (k : Nat)
deriving DecidableEq

/-- Deterministic oracles for the system collaborators, plus explicit
completion orders for the thread pools (`concurrent.futures.as_completed`
yields futures in an arbitrary order; the `*Order` fields fix one).  The
OUI vendor file is modelled by its availability flag and parsed contents. -/
structure NetEnv where
  pingAlive : String → Bool
  arpTable : List (String × String)
  tcpProbe : String → Nat → Bool
  hostnameOf : String → String
  portResult : String → ServiceInfo → Bool
  ouiFileAvailable : Bool
  ouiDb : List (String × String)
  pingOrder : List String → List String
  hostnameOrder : List String → List String
  serviceOrder : List (String × ServiceInfo) → List (String × ServiceInfo)

/-- The cooperative `_stop_scanning` flag.  `scan_network` resets it to
`False` on entry; a concurrent `stop_scan()` call becomes visible at some
read of the flag.  `stopAt = some k` means reads number `k, k+1, ...`
(counting from 0) observe `True`; `none` means no cancellation request. -/
def stopFlag (stopAt : Option Nat) (r : Nat) : Bool :=
  match stopAt with
  | none => false
  | some k => decide (k ≤ r)

/-! ### Vendor resolution (`_get_vendor`, `_get_vendor_ieee_oui`) -/

/-- MAC normalization from `_get_vendor`:
`mac.replace(":", "").replace("-", "").upper()`. -/
def normalizeMac (mac : String) : String :=
  pyUpper ((mac.data.filter (fun c => c ≠ ':' ∧ c ≠ '-')).asString)

/-- `_get_vendor_ieee_oui`: if the IEEE OUI file is present, look up the
first six normalized hex digits in the loaded table, defaulting to
`"Unknown"`; without the file, `"Unknown"`. -/
def getVendorIeeeOui (env : NetEnv) (mac : String) : String :=
  if env.ouiFileAvailable then
    (lookupAssoc env.ouiDb ((normalizeMac mac).data.take 6).asString).getD "Unknown"
  else "Unknown"

/-- `_get_vendor` with the per-instance `vendor_cache` passed explicitly.
Returns the vendor string, the updated cache, and how many times the
underlying `_get_vendor_ieee_oui` lookup ran (0 on a cache hit, 1 otherwise;
both branches of the source cache whatever was found, including
`"Unknown"`). -/
def getVendor (env : NetEnv) (cache : List (String × String)) (mac : String) :
    String × List (String × String) × Nat :=
  let norm := normalizeMac mac
  match lookupAssoc cache norm with
  | some v => (v, cache, 0)
  | none =>
      let vendor := getVendorIeeeOui env mac
      (vendor, cache ++ [(norm, vendor)], 1)

/-! ### Host discovery (`_enhanced_host_discovery`) -/

/-- `_is_in_network`: membership of `ip` in
`ipaddress.ip_network(network_range, strict=False)`; any parse failure is
caught and yields `False`. -/
def isInNetwork (ip networkRange : String) : Bool :=
  match parseCIDR? networkRange with
  | none => false
  | some (addr, n) =>
      match parseIPv4? ip with
      | none => false
      | some v =>
          let size := 2 ^ (32 - n)
          let base := addr - addr % size
          decide (base ≤ v ∧ v < base + size)

/-- The candidate cap: `if len(ip_list) > 254: ip_list = ip_list[:254]`. -/
def truncCandidates (l : List String) : List String :=
  if l.length > 254 then l.take 254 else l

/-- Structural worker for `chunks100`; the fuel dominates the number of
batches, so the `[l]` fallback is never reached from `chunks100`. -/
def chunks100Go : Nat → List String → List (List String)
  | _, [] => []
  | 0, l => [l]
  | fuel + 1, x :: xs => ((x :: xs).take 100) :: chunks100Go fuel ((x :: xs).drop 100)

/-- The fixed `batch_size = 100` partition of the candidate list
(`for batch_start in range(0, len(ip_list), batch_size)`). -/
def chunks100 (l : List String) : List (List String) :=
  chunks100Go l.length l

/-- Mutable state of the discovery phase: the `alive_hosts` list, the
`discovered_ips` set (kept as a list, only membership is used), and the
number of `_stop_scanning` reads performed so far. -/
structure DiscAcc where
  alive : List String
  discovered : List String
  reads : Nat
deriving DecidableEq

/-- The `for future in as_completed(futures)` loop of one ping batch
(scanner.py lines 1010-1024): each iteration reads the stop flag (breaking
if set), then records the ping outcome. -/
def processPing (env : NetEnv) (stopAt : Option Nat) :
    List String → DiscAcc → DiscAcc
  | [], acc => acc
  | ip :: rest, acc =>
      if stopFlag stopAt acc.reads then { acc with reads := acc.reads + 1 }
      else
        let acc := { acc with reads := acc.reads + 1 }
        if env.pingAlive ip then
          processPing env stopAt rest
            { acc with alive := acc.alive ++ [ip], discovered := acc.discovered ++ [ip] }
        else processPing env stopAt rest acc

/-- The batched ping sweep (scanner.py lines 998-1041).  The flag is read
once per batch before submitting it; every ping of a submitted batch runs
(the pool joins its workers even after a break), so the batch's probe
events are emitted at submission. -/
def runPingBatches (env : NetEnv) (stopAt : Option Nat) :
    List (List String) → DiscAcc → DiscAcc × List Ev
  | [], acc => (acc, [])
  | b :: rest, acc =>
      if stopFlag stopAt acc.reads then ({ acc with reads := acc.reads + 1 }, [])
      else
        let acc := { acc with reads := acc.reads + 1 }
        let acc := processPing env stopAt (env.pingOrder b) acc
        let (acc', evs') := runPingBatches env stopAt rest acc
        (acc', b.map Ev.pingProbe ++ evs')

/-- ARP supplement (scanner.py lines 1044-1052): every table entry whose
address is inside the range and not yet discovered is added.  This loop
never reads the stop flag. -/
def arpAdd (networkRange : String) :
    List (String × String) → DiscAcc → DiscAcc
  | [], acc => acc
  | (ip, _) :: rest, acc =>
      if ¬ acc.discovered.contains ip ∧ isInNetwork ip networkRange then
        arpAdd networkRange rest
          { acc with alive := acc.alive ++ [ip], discovered := acc.discovered ++ [ip] }
      else arpAdd networkRange rest acc

/-- The `test_ports` × probe-address pairs of the TCP probe, in submission
order (address-major, as in scanner.py lines 1075-1079). -/
def tcpPairs (probeIps : List String) : List (String × Nat) :=
  probeIps.flatMap (fun ip => [22, 80, 443, 445, 3389].map (fun p => (ip, p)))

/-- The TCP-probe result loop (scanner.py lines 1082-1095): per pair, read
the stop flag (break if set), then record a successful probe for a host not
yet discovered nor already found in this probe round. -/
def tcpResults (env : NetEnv) (stopAt : Option Nat) :
    List (String × Nat) → List String → DiscAcc → DiscAcc
  | [], _, acc => acc
  | (ip, port) :: rest, found, acc =>
      if stopFlag stopAt acc.reads then { acc with reads := acc.reads + 1 }
      else
        let acc := { acc with reads := acc.reads + 1 }
        if env.tcpProbe ip port ∧ ¬ acc.discovered.contains ip ∧ ¬ found.contains ip then
          tcpResults env stopAt rest (found ++ [ip])
            { acc with alive := acc.alive ++ [ip], discovered := acc.discovered ++ [ip] }
        else tcpResults env stopAt rest found acc

/-- The TCP port probe for silent hosts (scanner.py lines 1057-1095):
takes at most 50 of the still-undiscovered candidates; all submitted
connects run, so their events are emitted at submission. -/
def tcpStep (env : NetEnv) (stopAt : Option Nat) (ipList : List String)
    (acc : DiscAcc) : DiscAcc × List Ev :=
  let remaining := ipList.filter (fun ip => ¬ acc.discovered.contains ip)
  if remaining.isEmpty then (acc, [])
  else
    let pairs := tcpPairs (remaining.take 50)
    (tcpResults env stopAt pairs [] acc, pairs.map (fun t => Ev.tcpProbe t.1 t.2))

/-- The final host-building loop (scanner.py lines 1098-1105): per alive
address, read the stop flag (break if set), then attach the MAC from the
ARP table and the vendor via `_get_vendor` (threading its cache). -/
def buildHosts (env : NetEnv) (stopAt : Option Nat) :
    List String → List (String × String) → Nat → List HostEntry × Nat
  | [], _, reads => ([], reads)
  | ip :: rest, cache, reads =>
      if stopFlag stopAt reads then ([], reads + 1)
      else
        let mac := (lookupAssoc env.arpTable ip).getD ""
        let vc :=
          if mac ≠ "" then
            let r := getVendor env cache mac
            (r.1, r.2.1)
          else ("Unknown", cache)
        let (hs, reads') := buildHosts env stopAt rest vc.2 (reads + 1)
        ({ ip := ip, mac := mac, vendor := vc.1 } :: hs, reads')

/-- `_enhanced_host_discovery`: parse the range (any parse exception is
caught by the surrounding `try` and yields an empty host list), cap the
candidates at 254, then ping sweep, ARP supplement, TCP probe, and host
building.  Returns the hosts, the emitted events, and the flag-read count. -/
def enhancedHostDiscovery (env : NetEnv) (stopAt : Option Nat)
    (networkRange : String) : List HostEntry × List Ev × Nat :=
  match parse_ip_range networkRange with
  | .error _ => ([], [], 0)
  | .ok ipList0 =>
      let ipList := truncCandidates ipList0
      let p := runPingBatches env stopAt (chunks100 ipList) ⟨[], [], 0⟩
      let t := tcpStep env stopAt ipList (arpAdd networkRange env.arpTable p.1)
      let b := buildHosts env stopAt t.1.alive [] t.1.reads
      (b.1, p.2 ++ [Ev.arpRead] ++ t.2, b.2)

/-! ### Hostname enhancement (`_get_device_type_hint`, `_enhance_hostname`) -/

/-- `_get_device_type_hint` (scanner.py lines 629-757), verbatim port of
its conservative classification cascade.  `self._get_hostname(ip)` is a
cache hit at this point; the resolved name comes from the environment. -/
def getDeviceTypeHint (env : NetEnv) (ip : String) (services : List ServiceInfo) : String :=
  if pyStartsWith "127." ip ∨ ip = "::1" then ""
  else
    let service_ports := services.map (·.port)
    let is_likely_gateway := pyEndsWith ".1" ip ∨ pyEndsWith ".254" ip ∨ pyEndsWith ".255" ip
    let hostname :=
      let r := env.hostnameOf ip
      if r ≠ "" ∧ ¬ (pyLower r = "unknown" ∨ pyLower r = ip) then pyLower r else ""
    let gateway_hostnames :=
      ["gateway", "router", "gw", "rt", "firewall", "fw"].any (fun t => pySubstr t hostname)
    let has_web_interface := [80, 443].any (fun p => service_ports.contains p)
    let has_multiple_network_services :=
      (service_ports.filter (fun p => [53, 67, 123, 161].contains p)).length ≥ 2
    if (is_likely_gateway ∧ has_web_interface) ∨
        (gateway_hostnames ∧ has_web_interface ∧ has_multiple_network_services) then "Router"
    else if [631, 9100, 515].any (fun p => service_ports.contains p) then "Printer"
    else
      let db_ports : List Nat := [3306, 5432, 27017, 6379]
      let db_services := service_ports.filter (fun p => db_ports.contains p)
      let other_services :=
        service_ports.filter (fun p => ¬ (db_ports ++ [22, 80, 443]).contains p)
      if db_services ≠ [] ∧ other_services.length ≤ 1 ∧ db_services.length ≥ 1 then
        "Database Server"
      else
        let mail_ports := [25, 110, 143, 465, 993, 995]
        if (service_ports.filter (fun p => mail_ports.contains p)).length ≥ 2 then
          "Mail Server"
        else if [5000, 5001, 2049, 548].any (fun p => service_ports.contains p) then "NAS"
        else if [8008, 8009, 7000, 32469, 1900].any (fun p => service_ports.contains p) then
          "Media Device"
        else if [554, 8554, 1935].any (fun p => service_ports.contains p) then "Camera"
        else
          let dev_services := service_ports.filter (fun p => [3000, 3001, 5000, 8000, 8001].contains p)
          if dev_services ≠ [] ∧ service_ports.length ≤ 3 then "Dev Server"
          else
            let i1 : Nat :=
              if ([80, 443].any (fun p => service_ports.contains p)) ∧ service_ports.length ≥ 5
              then 1 else 0
            let i2 : Nat := if service_ports.contains 22 ∧ service_ports.length ≥ 5 then 1 else 0
            let i3 : Nat :=
              if [25, 110, 143, 465, 993, 995].any (fun p => service_ports.contains p)
              then 1 else 0
            let i4 : Nat := if [88, 389, 636].any (fun p => service_ports.contains p) then 1 else 0
            if i1 + i2 + i3 + i4 ≥ 2 then
              if service_ports.contains 3389 then "Windows Server"
              else if service_ports.contains 22 then "Linux Server"
              else if [80, 443].any (fun p => service_ports.contains p) then "Web Server"
              else ""
            else ""

/-- `_enhance_hostname` (scanner.py lines 759-787). -/
def enhanceHostname (env : NetEnv) (ip hostname : String) (services : List ServiceInfo) : String :=
  if hostname ≠ ip then hostname
  else
    let last_octet := ((pySplit '.' ip).getLast?).getD ""
    let device_type := getDeviceTypeHint env ip services
    if device_type ≠ "" then device_type ++ "-" ++ last_octet
    else if pyEndsWith ".1" ip then "Gateway-" ++ last_octet
    else ip

/-! ### The phases of `scan_network` -/

/-- Step 2, hostname resolution (scanner.py lines 830-857): futures are
processed in completion order; each iteration reads the stop flag (break
if set) and stores the resolved hostname. -/
def hostnameLoop (env : NetEnv) (stopAt : Option Nat) :
    List String → List (String × String) → Nat → List (String × String) × Nat
  | [], res, reads => (res, reads)
  | ip :: rest, res, reads =>
      if stopFlag stopAt reads then (res, reads + 1)
      else hostnameLoop env stopAt rest (res ++ [(ip, env.hostnameOf ip)]) (reads + 1)

/-- `all_scan_tasks` (scanner.py lines 869-872): the full cartesian product
of discovered hosts and the service catalog, host-major. -/
def buildScanTasks (hosts : List HostEntry) (services : List ServiceInfo) :
    List (String × ServiceInfo) :=
  hosts.flatMap (fun h => services.map (fun s => (h.ip, s)))

/-- `service_results = {host["ip"]: [] for host in hosts}` (line 875). -/
def initServiceResults (hosts : List HostEntry) : List (String × List ServiceInfo) :=
  hosts.map (fun h => (h.ip, ([] : List ServiceInfo)))

/-- `service_results[ip].append(service)`: append to the entry of `ip`. -/
def updateSvc (m : List (String × List ServiceInfo)) (ip : String) (svc : ServiceInfo) :
    List (String × List ServiceInfo) :=
  m.map (fun e => if e.1 = ip then (e.1, e.2 ++ [svc]) else e)

/-- Step 3's result loop (scanner.py lines 901-921): per completed probe,
read the stop flag (break if set), then record the service when the worker
reported the port open.  The worker (`_check_port`) returns `False` without
probing for a protocol other than tcp/udp; a worker that saw the stop flag
is modelled by `portResult` returning `False`. -/
def serviceLoop (env : NetEnv) (stopAt : Option Nat) :
    List (String × ServiceInfo) → List (String × List ServiceInfo) → Nat →
      List (String × List ServiceInfo) × Nat
  | [], m, reads => (m, reads)
  | (ip, svc) :: rest, m, reads =>
      if stopFlag stopAt reads then (m, reads + 1)
      else
        let open_ := (pyLower svc.protocol = "tcp" ∨ pyLower svc.protocol = "udp") ∧
          env.portResult ip svc
        let m := if open_ then updateSvc m ip svc else m
        serviceLoop env stopAt rest m (reads + 1)

/-- Step 4, result assembly (scanner.py lines 926-947): per host, read the
stop flag (break if set); an injected exception after `built` appended
results jumps to the `except` handler, which returns the partial list. -/
def assemble (env : NetEnv) (stopAt : Option Nat) (exn : Option ExnSite)
    (hn : List (String × String)) (sv : List (String × List ServiceInfo)) :
    List HostEntry → Nat → Nat → List ScanResult × Nat
  | [], _, reads => ([], reads)
  | h :: rest, built, reads =>
      if stopFlag stopAt reads then ([], reads + 1)
      else if exn = some (.duringAssembly built) then ([], reads + 1)
      else
        let hostname0 := (lookupAssoc hn h.ip).getD h.ip
        let services := (lookupAssoc sv h.ip).getD []
        let hostname := enhanceHostname env h.ip hostname0 services
        let r : ScanResult :=
          { ip := h.ip, hostname := hostname, mac := h.mac, vendor := h.vendor,
            services := services, is_alive := true }
        let (rs, reads') := assemble env stopAt exn hn sv rest (built + 1) (reads + 1)
        (r :: rs, reads')

/-- `scan_network` (scanner.py lines 789-955): discovery, parallel hostname
resolution, the host×service port-scan matrix, and result assembly.  The
returned event list records the spawned probes and submitted port tasks;
the `except Exception` handler (lines 952-955) returns the `results`
accumulated so far, which the `ExnSite` cases realize. -/
def scan_network (env : NetEnv) (stopAt : Option Nat) (exn : Option ExnSite)
    (networkRange : String) (services : List ServiceInfo) :
    List ScanResult × List Ev :=
  let d := enhancedHostDiscovery env stopAt networkRange
  if d.1.isEmpty then ([], d.2.1)
  else
    let hn := hostnameLoop env stopAt (env.hostnameOrder (d.1.map (·.ip))) [] d.2.2
    if exn = some .duringServices then ([], d.2.1)
    else
      let tasks := buildScanTasks d.1 services
      let sv := serviceLoop env stopAt (env.serviceOrder tasks) (initServiceResults d.1) hn.2
      ((assemble env stopAt exn hn.1 sv.1 d.1 0 sv.2).1,
       d.2.1 ++ tasks.map (fun t => Ev.submitPort t.1 t.2))

/-- Whether an event is the submission of a host×service port-probe task. -/
def Ev.isSubmit : Ev → Bool
  | .submitPort _ _ => true
  | _ => false

/-- Ascending order of a list of address literals, compared as 32-bit
address values (strictly increasing on adjacent elements). -/
def ascAddr : List String → Bool
  | [] => true
  | [_] => true
  | a :: b :: rest =>
      decide ((parseIPv4? a).getD 0 < (parseIPv4? b).getD 0) && ascAddr (b :: rest)

/-! ### Concrete test fixtures -/

/-- The SSH entry of `COMMON_SERVICES` (services.py). -/
def svcSSH : ServiceInfo :=
  { name := "SFTP/SSH", port := 22, protocol := "tcp",
    description := "Secure Shell/SFTP", access_method := "ssh" }

/-- A small network in which every candidate answers ping, the ARP table
and TCP probes contribute nothing, and thread pools complete in submission
order. -/
def envAllUp : NetEnv :=
  { pingAlive := fun _ => true
    arpTable := []
    tcpProbe := fun _ _ => false
    hostnameOf := fun ip => ip
    portResult := fun _ _ => false
    ouiFileAvailable := false
    ouiDb := []
    pingOrder := fun l => l
    hostnameOrder := fun l => l
    serviceOrder := fun l => l }

/-- Same network, but the ping pool's `as_completed` yields futures in
reverse submission order (a legal completion order). -/
def envAllUpRev : NetEnv := { envAllUp with pingOrder := List.reverse }

/-- A network where nothing answers ping but the neighbor table has one
(out-of-range) entry. -/
def envArpOnly : NetEnv :=
  { envAllUp with
    pingAlive := fun _ => false
    arpTable := [("192.168.0.7", "aa:bb:cc:dd:ee:ff")] }

/-- A network where no liveness strategy finds anything. -/
def envAllDown : NetEnv := { envAllUp with pingAlive := fun _ => false }

/-- An environment with the IEEE OUI file present and one table entry. -/
def envOui : NetEnv :=
  { envAllUp with ouiFileAvailable := true, ouiDb := [("AABBCC", "AcmeCorp")] }

/-! ### Decidable equality for `Except` results -/

instance exceptDecEq {ε α : Type} [DecidableEq ε] [DecidableEq α] :
    DecidableEq (Except ε α)
  | .ok a, .ok b =>
      match decEq a b with
      | isTrue h => isTrue (congrArg Except.ok h)
      | isFalse h => isFalse (fun hh => h (Except.ok.inj hh))
  | .error a, .error b =>
      match decEq a b with
      | isTrue h => isTrue (congrArg Except.error h)
      | isFalse h => isFalse (fun hh => h (Except.error.inj hh))
  | .ok _, .error _ => isFalse (fun hh => Except.noConfusion hh)
  | .error _, .ok _ => isFalse (fun hh => Except.noConfusion hh)


/-! ### Helper lemmas -/

theorem stopFlag_none (r : Nat) : stopFlag none r = false := rfl

theorem stopFlag_zero (r : Nat) : stopFlag (some 0) r = true := by
  simp [stopFlag]

theorem buildHosts_stopped (env : NetEnv) (l : List String)
    (cache : List (String × String)) (reads : Nat) :
    (buildHosts env (some 0) l cache reads).1 = [] := by
  cases l with
  | nil => rfl
  | cons ip rest => simp [buildHosts, stopFlag_zero]

theorem assemble_none (env : NetEnv) (hn : List (String × String))
    (sv : List (String × List ServiceInfo)) :
    ∀ (hosts : List HostEntry) (built reads : Nat),
      (assemble env none none hn sv hosts built reads).1.map (fun r => r.ip)
        = hosts.map (fun h => h.ip) ∧
      ((assemble env none none hn sv hosts built reads).1.all (fun r => r.is_alive)) = true := by
  intro hosts
  induction hosts with
  | nil => intro built reads; exact ⟨rfl, rfl⟩
  | cons h rest ih =>
      intro built reads
      simp only [assemble, stopFlag_none, Bool.false_eq_true, if_false, reduceCtorEq]
      simp only [List.map_cons, List.all_cons]
      exact ⟨by rw [(ih (built+1) (reads+1)).1], by simp [(ih (built+1) (reads+1)).2]⟩

theorem scan_map_ip (env : NetEnv) (range : String) (services : List ServiceInfo) :
    (scan_network env none none range services).1.map (fun r => r.ip)
      = (enhancedHostDiscovery env none range).1.map (fun h => h.ip) := by
  unfold scan_network
  by_cases hd : (enhancedHostDiscovery env none range).1.isEmpty
  · simp [hd, List.isEmpty_iff.mp hd]
  · simp only [hd, if_false, Bool.false_eq_true, reduceCtorEq]
    exact (assemble_none env _ _ _ 0 _).1

theorem scan_all_alive (env : NetEnv) (range : String) (services : List ServiceInfo) :
    ((scan_network env none none range services).1.all (fun r => r.is_alive)) = true := by
  unfold scan_network
  by_cases hd : (enhancedHostDiscovery env none range).1.isEmpty
  · simp [hd]
  · simp only [hd, if_false, Bool.false_eq_true, reduceCtorEq]
    exact (assemble_none env _ _ _ 0 _).2

theorem buildScanTasks_length (hosts : List HostEntry) (services : List ServiceInfo) :
    (buildScanTasks hosts services).length = hosts.length * services.length := by
  induction hosts with
  | nil => simp [buildScanTasks]
  | cons h rest ih =>
      simp only [buildScanTasks, List.flatMap_cons, List.length_append, List.length_map,
        List.length_cons] at *
      rw [ih]; ring

theorem lookup_init_none (hosts : List HostEntry) (j : String)
    (hj : j ∉ hosts.map (fun h => h.ip)) :
    lookupAssoc (initServiceResults hosts) j = none := by
  induction hosts with
  | nil => rfl
  | cons h rest ih =>
      simp only [List.map_cons, List.mem_cons, not_or] at hj
      show (if h.ip = j then some [] else lookupAssoc (initServiceResults rest) j) = none
      rw [if_neg (fun hh => hj.1 hh.symm)]
      exact ih hj.2

theorem lookup_updateSvc_none (m : List (String × List ServiceInfo))
    (ip : String) (svc : ServiceInfo) (j : String)
    (hm : lookupAssoc m j = none) :
    lookupAssoc (updateSvc m ip svc) j = none := by
  induction m with
  | nil => rfl
  | cons e rest ih =>
      obtain ⟨k, v⟩ := e
      simp only [lookupAssoc] at hm
      by_cases hej : k = j
      · rw [if_pos hej] at hm; simp at hm
      · rw [if_neg hej] at hm
        show lookupAssoc
          ((if k = ip then (k, v ++ [svc]) else (k, v)) :: updateSvc rest ip svc) j = none
        by_cases hei : k = ip
        · rw [if_pos hei]
          show (if k = j then some (v ++ [svc]) else lookupAssoc (updateSvc rest ip svc) j) = none
          rw [if_neg hej]; exact ih hm
        · rw [if_neg hei]
          show (if k = j then some v else lookupAssoc (updateSvc rest ip svc) j) = none
          rw [if_neg hej]; exact ih hm

theorem serviceLoop_lookup_none (env : NetEnv) (stopAt : Option Nat) (j : String) :
    ∀ (completed : List (String × ServiceInfo)) (m : List (String × List ServiceInfo))
      (reads : Nat), lookupAssoc m j = none →
      lookupAssoc (serviceLoop env stopAt completed m reads).1 j = none := by
  intro completed
  induction completed with
  | nil => intro m reads hm; exact hm
  | cons t rest ih =>
      intro m reads hm
      obtain ⟨ip, svc⟩ := t
      simp only [serviceLoop]
      by_cases hs : stopFlag stopAt reads
      · simp only [hs, if_true]; exact hm
      · simp only [hs, Bool.false_eq_true, if_false]
        by_cases ho : (pyLower svc.protocol = "tcp" ∨ pyLower svc.protocol = "udp") ∧
            env.portResult ip svc
        · simp only [ho, if_true]
          exact ih _ _ (lookup_updateSvc_none m ip svc j hm)
        · simp only [ho, if_false]
          exact ih _ _ hm

theorem filter_submit_map_ping (l : List String) :
    ((l.map Ev.pingProbe).filter (fun e => e.isSubmit)) = [] := by
  induction l with
  | nil => rfl
  | cons x xs ih => simp [List.filter_cons, Ev.isSubmit, ih]

theorem isSubmit_tcp (ip : String) (p : Nat) : (Ev.tcpProbe ip p).isSubmit = false := rfl

theorem isSubmit_submit (ip : String) (s : ServiceInfo) :
    (Ev.submitPort ip s).isSubmit = true := rfl

theorem filter_submit_map_tcp (l : List (String × Nat)) :
    ((l.map (fun t => Ev.tcpProbe t.1 t.2)).filter (fun e => e.isSubmit)) = [] := by
  induction l with
  | nil => rfl
  | cons x xs ih => simp only [List.map_cons, List.filter_cons, isSubmit_tcp, ih]; simp

theorem filter_submit_map_submit (l : List (String × ServiceInfo)) :
    ((l.map (fun t => Ev.submitPort t.1 t.2)).filter (fun e => e.isSubmit))
      = l.map (fun t => Ev.submitPort t.1 t.2) := by
  induction l with
  | nil => rfl
  | cons x xs ih => simp only [List.map_cons, List.filter_cons, isSubmit_submit, ih]; simp

theorem runPingBatches_no_submit (env : NetEnv) (stopAt : Option Nat) :
    ∀ (batches : List (List String)) (acc : DiscAcc),
      ((runPingBatches env stopAt batches acc).2.filter (fun e => e.isSubmit)) = [] := by
  intro batches
  induction batches with
  | nil => intro acc; rfl
  | cons b rest ih =>
      intro acc
      simp only [runPingBatches]
      by_cases hs : stopFlag stopAt acc.reads
      · simp [hs]
      · simp [hs, List.filter_append, filter_submit_map_ping, ih]

theorem tcpStep_no_submit (env : NetEnv) (stopAt : Option Nat) (ipList : List String)
    (acc : DiscAcc) :
    ((tcpStep env stopAt ipList acc).2.filter (fun e => e.isSubmit)) = [] := by
  unfold tcpStep
  dsimp only
  split
  · rfl
  · exact filter_submit_map_tcp _

theorem discovery_no_submit (env : NetEnv) (stopAt : Option Nat) (range : String) :
    ((enhancedHostDiscovery env stopAt range).2.1.filter (fun e => e.isSubmit)) = [] := by
  unfold enhancedHostDiscovery
  cases hp : parse_ip_range range with
  | error e => rfl
  | ok ipList0 =>
      simp only [List.filter_append, runPingBatches_no_submit, tcpStep_no_submit]
      simp [List.filter_cons, Ev.isSubmit]

theorem arpAdd_invalid (range : String)
    (hr : ∀ ip, isInNetwork ip range = false) :
    ∀ (entries : List (String × String)) (acc : DiscAcc),
      arpAdd range entries acc = acc := by
  intro entries
  induction entries with
  | nil => intro acc; rfl
  | cons e rest ih =>
      intro acc
      obtain ⟨ip, mac⟩ := e
      simp only [arpAdd, hr ip, Bool.false_eq_true, and_false, if_false]
      exact ih acc

theorem not_an_ip_no_network (ip : String) : isInNetwork ip "not-an-ip" = false := by
  unfold isInNetwork
  have h : parseCIDR? "not-an-ip" = none := by decide
  rw [h]

theorem discovery_not_an_ip (env : NetEnv) (stopAt : Option Nat) :
    enhancedHostDiscovery env stopAt "not-an-ip" = ([], [Ev.arpRead], 0) := by
  have hp : parse_ip_range "not-an-ip" = .ok [] := by decide
  unfold enhancedHostDiscovery
  rw [hp]
  dsimp only
  rw [show truncCandidates [] = [] from rfl]
  rw [show chunks100 [] = [] from rfl]
  rw [show runPingBatches env stopAt [] ⟨[], [], 0⟩ = (⟨[], [], 0⟩, []) from rfl]
  rw [arpAdd_invalid "not-an-ip" not_an_ip_no_network env.arpTable ⟨[], [], 0⟩]
  rfl

theorem scan_not_an_ip (env : NetEnv) (services : List ServiceInfo) :
    scan_network env none none "not-an-ip" services = ([], [Ev.arpRead]) := by
  unfold scan_network
  rw [discovery_not_an_ip env none]
  rfl

theorem discovery_stop_zero (env : NetEnv) (range : String) :
    (enhancedHostDiscovery env (some 0) range).1 = [] := by
  unfold enhancedHostDiscovery
  cases hp : parse_ip_range range with
  | error e => rfl
  | ok ipList0 => exact buildHosts_stopped env _ [] _

theorem scan_stop_zero (env : NetEnv) (range : String) (services : List ServiceInfo) :
    (scan_network env (some 0) none range services).1 = [] ∧
    ((scan_network env (some 0) none range services).2.filter (fun e => e.isSubmit)) = [] := by
  unfold scan_network
  simp only [discovery_stop_zero, List.isEmpty_nil, if_true]
  exact ⟨trivial, discovery_no_submit env (some 0) range⟩

theorem scan_submit_length (env : NetEnv) (range : String) (services : List ServiceInfo) :
    (((scan_network env none none range services).2.filter (fun e => e.isSubmit)).length)
      = (enhancedHostDiscovery env none range).1.length * services.length := by
  unfold scan_network
  by_cases hd : (enhancedHostDiscovery env none range).1.isEmpty
  · simp only [hd, if_true]
    rw [discovery_no_submit]
    simp [List.isEmpty_iff.mp hd]
  · simp only [hd, Bool.false_eq_true, if_false, reduceCtorEq]
    rw [List.filter_append, discovery_no_submit, filter_submit_map_submit]
    simp [buildScanTasks_length]

theorem assemble_exn_take (env : NetEnv) (hn : List (String × String))
    (sv : List (String × List ServiceInfo)) (k : Nat) :
    ∀ (hosts : List HostEntry) (built reads : Nat), built ≤ k →
      (assemble env none (some (.duringAssembly k)) hn sv hosts built reads).1
        = ((assemble env none none hn sv hosts built reads).1).take (k - built) := by
  intro hosts
  induction hosts with
  | nil => intro built reads hb; simp [assemble]
  | cons h rest ih =>
      intro built reads hb
      by_cases hk : built = k
      · subst hk
        simp only [assemble, stopFlag_none, Bool.false_eq_true, if_false, reduceCtorEq]
        simp [Nat.sub_self]
      · simp only [assemble, stopFlag_none, Bool.false_eq_true, if_false, reduceCtorEq]
        rw [if_neg (by simp; omega)]
        have hcount : k - built = (k - (built + 1)) + 1 := by omega
        rw [hcount, List.take_succ_cons]
        rw [ih (built + 1) (reads + 1) (by omega)]

theorem scan_exn_services (env : NetEnv) (range : String) (services : List ServiceInfo) :
    (scan_network env none (some .duringServices) range services).1 = [] := by
  unfold scan_network
  by_cases hd : (enhancedHostDiscovery env none range).1.isEmpty
  · simp [hd]
  · simp [hd]

theorem scan_exn_assembly (env : NetEnv) (range : String) (services : List ServiceInfo)
    (k : Nat) :
    (scan_network env none (some (.duringAssembly k)) range services).1
      = ((scan_network env none none range services).1).take k := by
  unfold scan_network
  by_cases hd : (enhancedHostDiscovery env none range).1.isEmpty
  · simp [hd]
  · simp only [hd, Bool.false_eq_true, if_false, reduceCtorEq]
    rw [assemble_exn_take env _ _ k _ 0 _ (Nat.zero_le k)]
    simp

theorem cidrHostsN_length (addr n : Nat) (hn : n ≤ 30) :
    (cidrHostsN addr n).length = 2 ^ (32 - n) - 2 := by
  simp [cidrHostsN, hn]

theorem truncCandidates_take (l : List String) :
    truncCandidates l = l.take 254 := by
  unfold truncCandidates
  split
  · rfl
  · next h => rw [List.take_of_length_le (by omega)]

theorem rangeLastOctet_length (baseIp : String) (s : Nat) (e : Int)
    (h : (s : Int) ≤ e) :
    (rangeLastOctet baseIp s e).length = (e - s + 1).toNat := by
  simp only [rangeLastOctet, List.length_map, List.length_range]
  omega


/-! ### Claim theorems -/

/-- Claim C1, counterexample.  The claim states that scanning the malformed
range `"not-an-ip"` returns a `ParseError` and never invokes any liveness
prober.  Both parts fail on the code: `"not-an-ip"` contains two dashes, so
`parse_ip_range` skips its single-dash branch and returns `ok []` rather
than raising, and the subsequent discovery still performs the
neighbor-table read (the `arpRead` event below). -/
theorem C1_counterexample :
    parse_ip_range "not-an-ip" = .ok [] ∧
    Ev.arpRead ∈ (scan_network envArpOnly none none "not-an-ip" [svcSSH]).2 := by
  decide

/-- Claim C1, amended.  For the spec `"not-an-ip"`, `parse_ip_range`
returns an empty list without error; the scan then proceeds, performing
the neighbor-table read but no ping and no TCP probe (the event trace is
exactly `[arpRead]`), and returns an empty result list — in every
environment. -/
theorem C1_amended_theorem (env : NetEnv) (services : List ServiceInfo) :
    scan_network env none none "not-an-ip" services = ([], [Ev.arpRead]) ∧
    parse_ip_range "not-an-ip" = .ok [] :=
  ⟨scan_not_an_ip env services, by decide⟩

/-- Claim C2, counterexample.  The claim states that an unexpected
exception during any phase is converted into a terminal `ScanError` and
every partial result is discarded (all-or-nothing).  On the code, the
`except Exception` handler of `scan_network` returns the `results` list
accumulated so far: with two alive hosts and an exception after the first
result was assembled, the caller receives a one-element partial list — not
an error value, and neither all nor nothing. -/
theorem C2_counterexample :
    (scan_network envAllUp none (some (.duringAssembly 1)) "10.0.0.1-2" [svcSSH]).1.length = 1 ∧
    (scan_network envAllUp none none "10.0.0.1-2" [svcSSH]).1.length = 2 ∧
    ((scan_network envAllUp none (some (.duringAssembly 1)) "10.0.0.1-2" [svcSSH]).1.map
        (fun r => r.ip)) = ["10.0.0.1"] := by
  decide

/-- Claim C2, amended.  An unexpected exception inside `scan_network`'s
`try` block is caught and the results accumulated so far are returned as a
plain list (no `ScanError` value exists in the return type): a failure
while creating the port-scan pool yields the empty list, and a failure
during assembly after `k` results yields exactly the first `k` results of
the corresponding untroubled scan. -/
theorem C2_amended_theorem (env : NetEnv) (range : String)
    (services : List ServiceInfo) (k : Nat) :
    (scan_network env none (some .duringServices) range services).1 = [] ∧
    (scan_network env none (some (.duringAssembly k)) range services).1
      = ((scan_network env none none range services).1).take k :=
  ⟨scan_exn_services env range services, scan_exn_assembly env range services k⟩

/-- Claim C3: the number of service probe tasks generated equals
`|aliveHosts| × |services|` — counted both as the submitted-task events of
a whole scan and as the length of `all_scan_tasks` — and the per-host
service map never acquires an entry for an address that is not in the
alive-host set, whatever the completion order of the probes. -/
theorem C3_theorem :
    (∀ (env : NetEnv) (range : String) (services : List ServiceInfo),
      ((scan_network env none none range services).2.filter (fun e => e.isSubmit)).length
        = (enhancedHostDiscovery env none range).1.length * services.length) ∧
    (∀ (hosts : List HostEntry) (services : List ServiceInfo),
      (buildScanTasks hosts services).length = hosts.length * services.length) ∧
    (∀ (env : NetEnv) (stopAt : Option Nat) (completed : List (String × ServiceInfo))
        (hosts : List HostEntry) (reads : Nat) (j : String),
      j ∉ hosts.map (fun h => h.ip) →
      lookupAssoc (serviceLoop env stopAt completed (initServiceResults hosts) reads).1 j
        = none) :=
  ⟨scan_submit_length, buildScanTasks_length,
   fun env stopAt completed hosts reads j hj =>
     serviceLoop_lookup_none env stopAt j completed _ reads (lookup_init_none hosts j hj)⟩

/-- Claim C3, witness: a concrete one-host service loop leaves no entry
for the absent address `"10.9.9.9"`. -/
theorem C3_witness :
    lookupAssoc (serviceLoop envAllUp none [("10.0.0.1", svcSSH)]
      (initServiceResults [⟨"10.0.0.1", "", ""⟩]) 0).1 "10.9.9.9" = none :=
  C3_theorem.2.2 envAllUp none [("10.0.0.1", svcSSH)] [⟨"10.0.0.1", "", ""⟩] 0 "10.9.9.9"
    (by decide)

/-- Claim C4: a scan that runs without cancellation and without an
injected exception produces exactly one `ScanResult` per discovered alive
host (same addresses, in particular the same count), every result is
marked alive, and a host with no confirmed open service still appears,
carrying an empty service list (shown concretely for a scan in which no
port probe succeeds). -/
theorem C4_theorem (env : NetEnv) (range : String) (services : List ServiceInfo) :
    ((scan_network env none none range services).1.map (fun r => r.ip)
      = (enhancedHostDiscovery env none range).1.map (fun h => h.ip)) ∧
    ((scan_network env none none range services).1.length
      = (enhancedHostDiscovery env none range).1.length) ∧
    ((scan_network env none none range services).1.all (fun r => r.is_alive)) = true ∧
    ((scan_network envAllUp none none "10.0.0.1-2" [svcSSH]).1.map (fun r => r.services))
      = [[], []] :=
  ⟨scan_map_ip env range services,
   by rw [← List.length_map (scan_network env none none range services).1 (fun r => r.ip),
        scan_map_ip env range services, List.length_map],
   scan_all_alive env range services,
   by decide⟩

/-- Claim C5, counterexample.  The claim states the final result sequence
is sorted ascending by address regardless of probe completion order.  With
a legal completion order in which the ping future of `10.0.0.2` finishes
first, the completed scan returns its results in the order
`[10.0.0.2, 10.0.0.1]`, which is not ascending. -/
theorem C5_counterexample :
    ((scan_network envAllUpRev none none "10.0.0.1-2" [svcSSH]).1.map (fun r => r.ip))
      = ["10.0.0.2", "10.0.0.1"] ∧
    ascAddr ((scan_network envAllUpRev none none "10.0.0.1-2" [svcSSH]).1.map (fun r => r.ip))
      = false := by
  decide

/-- Claim C5, amended.  No sort is applied anywhere: the final sequence
preserves the discovery order of the alive hosts, which itself follows
ping completion order — so two scans of the same network that differ only
in completion order return differently-ordered sequences. -/
theorem C5_amended_theorem :
    (∀ (env : NetEnv) (range : String) (services : List ServiceInfo),
      (scan_network env none none range services).1.map (fun r => r.ip)
        = (enhancedHostDiscovery env none range).1.map (fun h => h.ip)) ∧
    ((scan_network envAllUp none none "10.0.0.1-2" [svcSSH]).1.map (fun r => r.ip)
      = ["10.0.0.1", "10.0.0.2"]) ∧
    ((scan_network envAllUpRev none none "10.0.0.1-2" [svcSSH]).1.map (fun r => r.ip)
      = ["10.0.0.2", "10.0.0.1"]) :=
  ⟨scan_map_ip, by decide, by decide⟩

/-- Claim C6, counterexample.  The claim states that cancellation during
discovery makes the scan terminate in a CANCELLED state and that no
host×service port-probe task is ever submitted after the request.  Here a
stop request becomes visible at flag read 4 — during discovery's
host-building loop, as witnessed by the host list being truncated to
`[10.0.0.1]` out of `[10.0.0.1, 10.0.0.2]` — yet the scan afterwards still
submits the port-probe task for the surviving host, and its return value
is the same plain empty list a completed scan of a dead network returns:
no distinct CANCELLED outcome exists. -/
theorem C6_counterexample :
    ((enhancedHostDiscovery envAllUp (some 4) "10.0.0.1-2").1.map (fun h => h.ip))
      = ["10.0.0.1"] ∧
    ((enhancedHostDiscovery envAllUp none "10.0.0.1-2").1.map (fun h => h.ip))
      = ["10.0.0.1", "10.0.0.2"] ∧
    Ev.submitPort "10.0.0.1" svcSSH
      ∈ (scan_network envAllUp (some 4) none "10.0.0.1-2" [svcSSH]).2 ∧
    (scan_network envAllUp (some 4) none "10.0.0.1-2" [svcSSH]).1 = [] ∧
    (scan_network envAllUp (some 4) none "10.0.0.1-2" [svcSSH]).1
      = (scan_network envAllDown none none "10.0.0.1-2" [svcSSH]).1 := by
  decide

/-- Claim C6, amended.  When the stop request is already visible at the
scan's first cooperative checkpoint, discovery assembles no hosts and
`scan_network` returns the empty list without submitting a single
host×service port-probe task; the return value carries no distinct
CANCELLED indicator (the counterexample shows that a request landing after
a host was assembled no longer prevents task submission). -/
theorem C6_amended_theorem (env : NetEnv) (range : String) (services : List ServiceInfo) :
    (scan_network env (some 0) none range services).1 = [] ∧
    ((scan_network env (some 0) none range services).2.filter (fun e => e.isSubmit)) = [] :=
  scan_stop_zero env range services

set_option maxRecDepth 40000 in
/-- Claim C7: expanding `"192.168.1.1-254"` yields exactly the 254
addresses `192.168.1.1` … `192.168.1.254`, in ascending address order. -/
theorem C7_theorem :
    parse_ip_range "192.168.1.1-254"
      = .ok ((List.range 254).map (fun i => "192.168.1." ++ toString (1 + i))) ∧
    (parse_ip_range "192.168.1.1-254").toOption.map List.length = some 254 ∧
    (parse_ip_range "192.168.1.1-254").toOption.map ascAddr = some true := by
  decide

set_option maxRecDepth 40000 in
/-- Claim C8: for every CIDR with prefix `n ≤ 30`, the `hosts()`
enumeration used by `parse_ip_range` has exactly `2^(32-n) - 2` entries
(network and broadcast excluded); the discovery phase caps the candidate
list at its first 254 entries (`truncCandidates` is `take 254` on every
list); concretely, `"10.0.0.0/23"` expands to 510 addresses of which the
scan keeps 254. -/
theorem C8_theorem :
    (∀ (addr n : Nat), n ≤ 30 → (cidrHostsN addr n).length = 2 ^ (32 - n) - 2) ∧
    (∀ l : List String, truncCandidates l = l.take 254) ∧
    (parse_ip_range "10.0.0.0/23").map List.length = .ok 510 ∧
    (parse_ip_range "10.0.0.0/23").map (fun l => (truncCandidates l).length) = .ok 254 :=
  ⟨cidrHostsN_length, truncCandidates_take, by decide, by decide⟩

/-- Claim C8, witness: the `/24` instance has `2^8 - 2 = 254` host
addresses. -/
theorem C8_witness : (cidrHostsN 167772160 24).length = 2 ^ (32 - 24) - 2 :=
  C8_theorem.1 167772160 24 (by decide)

/-- Claim C9: resolving a vendor twice for the same MAC from a fresh cache
returns the identical string both times; the underlying IEEE-OUI lookup
runs exactly once (on the first call) and not at all on the second, which
is answered from the cache entry keyed by the normalized MAC. -/
theorem C9_theorem (env : NetEnv) (mac : String) :
    (getVendor env [] mac).1 = (getVendor env (getVendor env [] mac).2.1 mac).1 ∧
    (getVendor env [] mac).2.2 = 1 ∧
    (getVendor env (getVendor env [] mac).2.1 mac).2.2 = 0 ∧
    lookupAssoc (getVendor env [] mac).2.1 (normalizeMac mac)
      = some (getVendor env [] mac).1 := by
  simp [getVendor, lookupAssoc]

set_option maxRecDepth 40000 in
/-- Claim C10: the trailing-octet range branch produces exactly
`e - s + 1` strings for bounds `s ≤ e` with no upper-bound validation of
`e`; concretely, `"192.168.1.250-300"` parses without error into the 51
strings `192.168.1.250` … `192.168.1.300`, and the produced
`"192.168.1.300"` is not a valid IPv4 address literal. -/
theorem C10_theorem :
    (∀ (baseIp : String) (s : Nat) (e : Int), (s : Int) ≤ e →
      (rangeLastOctet baseIp s e).length = (e - s + 1).toNat) ∧
    (parse_ip_range "192.168.1.250-300"
      = .ok ((List.range 51).map (fun i => "192.168.1." ++ toString (250 + i)))) ∧
    ((parse_ip_range "192.168.1.250-300").map (fun l => l.contains "192.168.1.300")
      = .ok true) ∧
    parseIPv4? "192.168.1.300" = none :=
  ⟨rangeLastOctet_length, by decide, by decide, by decide⟩

/-- Claim C10, witness: the bounds `250 ≤ 300` give `51` strings. -/
theorem C10_witness : (rangeLastOctet "192.168.1" 250 300).length = ((300 : Int) - 250 + 1).toNat :=
  C10_theorem.1 "192.168.1" 250 300 (by decide)

end BigNetworkInfo
